import Mathlib

/-!
Verification of `telegram_calls.py`.

This file gives a shallow embedding of the script's own logic and proves the
frozen claims about it.  The third-party telethon client is modelled as an
environment (`CallEnv`): each remote operation is a field returning either a
value or a Python exception (`PyErr`), and the per-target call routine is a
function of that environment.  Python strings are `List Char`/`String`,
Python `int` is `Int`/`Nat`, and the `float` durations (ring duration, the
fixed 0.3 s and 1.0 s delays) are modelled as rationals, which is exact for
every literal appearing in the script.  Side effects that the claims talk
about (entity resolution, message sending, sleeps, the two call RPCs) are
recorded in an event trace; console printing is not modelled.
-/

/-! ## Python string primitives used by the script -/

/-- The characters Python treats as whitespace (`str.isspace()`): the
exact set used by `str.strip()` and by no-argument `str.split()` — the
ASCII range 0x09-0x0D and the space, the separator controls 0x1C-0x1F,
NEL, NBSP, and the Unicode space codepoints. -/
def isPySpace (c : Char) : Bool :=
  (0x09 ≤ c.toNat && c.toNat ≤ 0x0D) ||
  (0x1C ≤ c.toNat && c.toNat ≤ 0x1F) ||
  c.toNat == 0x20 || c.toNat == 0x85 || c.toNat == 0xA0 ||
  c.toNat == 0x1680 ||
  (0x2000 ≤ c.toNat && c.toNat ≤ 0x200A) ||
  c.toNat == 0x2028 || c.toNat == 0x2029 ||
  c.toNat == 0x202F || c.toNat == 0x205F || c.toNat == 0x3000

/-- Python `s.strip()` on a character list: drop leading and trailing
whitespace. -/
def pyStripL (s : List Char) : List Char :=
  ((s.dropWhile isPySpace).reverse.dropWhile isPySpace).reverse

/-- Python `s.split('\n')`: split at every newline, keeping empty pieces
(`''.split('\n') == ['']`). -/
def splitNl : List Char → List (List Char)
  | [] => [[]]
  | c :: cs =>
    if c = '\n' then [] :: splitNl cs
    else
      match splitNl cs with
      | [] => [[c]]
      | l :: ls => (c :: l) :: ls

/-- The decimal digit character for a value below ten (used to model
Python `str(int)`). -/
def decChar : Nat → Char
  | 0 => '0'
  | 1 => '1'
  | 2 => '2'
  | 3 => '3'
  | 4 => '4'
  | 5 => '5'
  | 6 => '6'
  | 7 => '7'
  | 8 => '8'
  | _ => '9'

/-- Value of a decimal digit character. -/
def decVal (c : Char) : Nat := c.toNat - 48

/-- Little-endian decimal digits of `n`, with explicit fuel so that the
definition is structural and kernel-evaluable.  Any fuel above `n` gives
the digits of `n`. -/
def natDigitsRevAux : Nat → Nat → List Nat
  | 0, _ => []
  | fuel + 1, n => if n = 0 then [] else n % 10 :: natDigitsRevAux fuel (n / 10)

/-- Python `str(n)` for a natural number: most-significant digit first. -/
def natStr (n : Nat) : List Char :=
  if n = 0 then ['0'] else (natDigitsRevAux (n + 1) n).reverse.map decChar

/-- Python `str(n)` for an `int` (the script only ever formats `int`s and
`FloodWaitError.seconds`, both plain integers). -/
def intStr (n : Int) : List Char :=
  if n < 0 then '-' :: natStr n.natAbs else natStr n.toNat

/-- Decimal value of a list of digit characters, most significant first. -/
def digitsVal (ds : List Char) : Nat :=
  ds.foldl (fun a c => a * 10 + decVal c) 0

/-- Parse an unsigned run of decimal digits; `none` when empty or when a
non-digit occurs (Python `int()` raises `ValueError` there). -/
def digitsOpt (ds : List Char) : Option Nat :=
  if ds.isEmpty then none
  else if ds.all Char.isDigit then some (digitsVal ds) else none

/-- Python `int(s)` on a string: surrounding whitespace is allowed, then an
optional sign and a nonempty digit run; anything else raises, modelled as
`none`.  (Python additionally accepts underscores between digits and
non-ASCII digits; neither can appear in a config file the script itself
wrote, which is the case the claims quantify over.) -/
def pyParseIntL (s : List Char) : Option Int :=
  match pyStripL s with
  | [] => none
  | c :: rest =>
    if c = '-' then (digitsOpt rest).map (fun n => -(n : Int))
    else if c = '+' then (digitsOpt rest).map (fun n => (n : Int))
    else (digitsOpt (c :: rest)).map (fun n => (n : Int))

/-- Python `s.isdigit()` for the ASCII identifiers the script handles:
nonempty and all decimal digits. -/
def pyIsDigit (s : List Char) : Bool :=
  !s.isEmpty && s.all Char.isDigit

/-- Split on whitespace runs discarding empty pieces, as Python `s.split()`
with no argument does. -/
def pySplitWs : List Char → List Char → List (List Char)
  | [], acc => if acc.isEmpty then [] else [acc.reverse]
  | c :: cs, acc =>
    if isPySpace c then
      if acc.isEmpty then pySplitWs cs [] else acc.reverse :: pySplitWs cs []
    else pySplitWs cs (c :: acc)

/-- Checks whether `pat` occurs as a contiguous substring of `s`
(Python `pat in s`). -/
def listContainsSub (pat : List Char) : List Char → Bool
  | [] => pat.isEmpty
  | c :: cs => pat.isPrefixOf (c :: cs) || listContainsSub pat cs

/-- Python `"PRIVACY" in error_msg.upper()` from the generic exception
handler. -/
def containsPrivacyUpper (msg : String) : Bool :=
  listContainsSub ("PRIVACY").data (msg.data.map Char.toUpper)

/-! ## Data model (`CallStatus`, `CallResult`, the telethon interface) -/

/-- The closed status enum of `CallStatus` (the Russian display strings the
source attaches to each member are kept in `CallStatus.value`). -/
inductive CallStatus
  | SUCCESS
  | PRIVACY
  | NOT_FOUND
  | FLOOD
  | FAILED
deriving DecidableEq

/-- The display string of each `CallStatus` member, as in the source enum. -/
def CallStatus.value : CallStatus → String
  | .SUCCESS => "✅ Успешно"
  | .PRIVACY => "🔒 Приватность"
  | .NOT_FOUND => "❓ Не найден"
  | .FLOOD => "⏳ Flood wait"
  | .FAILED => "❌ Ошибка"

/-- The `CallResult` dataclass: target identifier, status, human-readable
message. -/
structure CallResult where
  username : String
  status : CallStatus
  message : String
deriving DecidableEq

/-- A resolved telethon user entity; only the fields the script reads. -/
structure Entity where
  username : Option String
  id : Nat
deriving DecidableEq

/-- Argument of `client.get_entity`: the script passes either `int(target)`
or the string itself. -/
inductive EntityRef
  | byId (n : Nat)
  | byName (s : String)
deriving DecidableEq

/-- The Python exceptions distinguished by the script's handlers.  Every
telethon error is an `Exception`, so the catch-all clause receives whatever
the first three do not. -/
inductive PyErr
  | privacy
  | floodWait (seconds : Nat)
  | valueError (msg : String)
  | other (msg : String)
deriving DecidableEq

/-- The fields of `result.phone_call` the script reads after
`RequestCallRequest`. -/
structure PhoneCallObj where
  id : Nat
  access_hash : Nat
deriving DecidableEq

/-- Behaviour of the telethon client: each awaited operation either returns
a value or raises a `PyErr`.  Quantifying theorems over `CallEnv` quantifies
over every behaviour of the underlying library. -/
structure CallEnv where
  get_entity : EntityRef → Except PyErr Entity
  send_message : Entity → String → Except PyErr Unit
  request_call : Entity → Except PyErr PhoneCallObj
  discard_call : Nat → Nat → Except PyErr Unit

/-- Observable events of one interactive session, in order. -/
inductive Event
  | resolve (ref : EntityRef)
  | sendMsg (target : Entity) (msg : String)
  | sleep (seconds : ℚ)
  | genDH
  | requestCall (target : Entity)
  | discardCall (id : Nat) (access_hash : Nat)
deriving DecidableEq

/-- True exactly on `Event.sendMsg` events. -/
def Event.isSend : Event → Bool
  | .sendMsg _ _ => true
  | _ => false

/-- True exactly on `Event.requestCall` events. -/
def Event.isRequest : Event → Bool
  | .requestCall _ => true
  | _ => false

/-- The rational duration of a sleep event, `none` for other events. -/
def Event.sleepSeconds : Event → Option ℚ
  | .sleep q => some q
  | _ => none

/-! ## The `TelegramCaller` class -/

namespace TelegramCaller

/-- The fixed 2048-bit DH prime from the source (`DH_PRIME`), written there
as a hexadecimal string literal. -/
def DH_PRIME : Nat :=
  0xC71CAEB9C6B1C9048E6C522F70F13F73980D40238E3E21C14934D037563D930F48198A0AA7C14058229493D22530F4DBFA336F6E0AC925139543AED44CCE7C3720FD51F69458705AC68CD4FE6B6B13ABDC9746512969328454F18FAF8C595F642477FE96BB2A941D5BCD1D4AC8CC49880708FA9B378E3C4F3A9060BEE67CF9A4A4A695811051907E162753B56B0F6B410DBA74D8A84B2A14B3144E0EF1284754FD17ED950D5965B4B9DD46582DB1178D169C6BC465B0D6FF9CA3928FEF5B9AE4E418FC15E83EBEA0F87FA9FF5EED70050DED2849F47BF959D956850CE929851F0D8115F635B105EE2E4E15D04B2454BF6F4FADF034B10403119CD8E3B92FCC5B

/-- The DH generator from the source. -/
def DH_GENERATOR : Nat := 3

/-- Python `n.to_bytes(len, byteorder='big')`: the big-endian byte list of
`n` padded to `len` bytes (for `n < 256 ^ len`, which the caller
guarantees). -/
def toBytesBE : Nat → Nat → List Nat
  | 0, _ => []
  | l + 1, n => toBytesBE l (n / 256) ++ [n % 256]

/-- The body of `_generate_dh_params`.  The 256-bit random exponent drawn by
`secrets.randbits(256)` is the argument `private_key`; SHA-256, a stdlib
primitive the script only forwards to, is the function argument `sha256`
from bytes to digest bytes. -/
def generate_dh_params (sha256 : List Nat → List Nat) (private_key : Nat) :
    List Nat × Nat :=
  let g_a := DH_GENERATOR ^ private_key % DH_PRIME
  let g_a_bytes := toBytesBE 256 g_a
  let g_a_hash := sha256 g_a_bytes
  (g_a_hash, g_a)

/-- Lines 171-174 of `call`: strip surrounding whitespace, then drop one
leading `@`. -/
def normalizeTarget (username : String) : List Char :=
  match pyStripL username.data with
  | '@' :: rest => rest
  | l => l

/-- Lines 179-182 of `call`: numeric targets are resolved as `int(target)`,
others as the string itself. -/
def refOf (username : String) : EntityRef :=
  let t := normalizeTarget username
  if pyIsDigit t then .byId (digitsVal t) else .byName (String.mk t)

/-- The generic `except Exception` clause of `call` (lines 242-248): a
message containing `PRIVACY` (upper-cased) is reported as a privacy
restriction, anything else as a failure carrying the exception text. -/
def genericHandler (username msg : String) : CallResult :=
  if containsPrivacyUpper msg then
    ⟨username, CallStatus.PRIVACY, "Звонки запрещены"⟩
  else
    ⟨username, CallStatus.FAILED, msg⟩

/-- The three `except` clauses wrapping the body of `call`
(lines 234-248), applied to whichever exception escapes the body.
`ValueError` from anywhere but entity resolution reaches the catch-all
clause, as in the source. -/
def handleOuter (username : String) (e : PyErr) : CallResult :=
  match e with
  | .privacy => ⟨username, CallStatus.PRIVACY, "Звонки запрещены настройками приватности"⟩
  | .floodWait s => ⟨username, CallStatus.FLOOD, "Подождите " ++ String.mk (natStr s) ++ "с"⟩
  | .valueError m => genericHandler username m
  | .other m => genericHandler username m

/-- The success message of `call`.  The source formats the float duration
with an f-string; float formatting is outside this embedding and no claim
reads this string, so the duration is not rendered. -/
def successMsg (_duration : ℚ) : String := "Звонок"

/-- Steps of `call` from the request RPC on (lines 193-232), shared by the
message and no-message paths; `pre` is the trace of the optional message
step.  The DH hash value feeds only the request RPC, whose outcome the
environment determines, so the trace records the generation step.
The discard RPC's outcome is ignored either way (`except Exception: pass`). -/
def afterMessage (env : CallEnv) (username : String) (duration : ℚ)
    (user : Entity) (pre : List Event) : Except PyErr CallResult × List Event :=
  match env.request_call user with
  | .error e =>
      (.error e, .resolve (refOf username) :: pre ++ [.genDH, .requestCall user])
  | .ok pc =>
      let trace := .resolve (refOf username) :: pre ++
        [.genDH, .requestCall user, .sleep duration, .discardCall pc.id pc.access_hash]
      match env.discard_call pc.id pc.access_hash with
      | .ok _ => (.ok ⟨username, CallStatus.SUCCESS, successMsg duration⟩, trace)
      | .error _ => (.ok ⟨username, CallStatus.SUCCESS, successMsg duration⟩, trace)

/-- The body of `call` inside the outer `try` (lines 176-232): `.ok` is a
`return`, `.error` is an exception escaping to the outer handlers.  The
inner `try` around `get_entity` catches exactly `ValueError`; a successful
message send is followed by `asyncio.sleep(0.3)`. -/
def callBody (env : CallEnv) (username : String) (duration : ℚ)
    (message : Option String) : Except PyErr CallResult × List Event :=
  match env.get_entity (refOf username) with
  | .error (.valueError _) =>
      (.ok ⟨username, CallStatus.NOT_FOUND, "Пользователь не найден"⟩,
       [.resolve (refOf username)])
  | .error e => (.error e, [.resolve (refOf username)])
  | .ok user =>
    match message with
    | none => afterMessage env username duration user []
    | some msg =>
      match env.send_message user msg with
      | .error e => (.error e, [.resolve (refOf username), .sendMsg user msg])
      | .ok _ => afterMessage env username duration user [.sendMsg user msg, .sleep (3 / 10)]

/-- `TelegramCaller.call`: the body guarded by the outer exception
handlers.  Always returns a `CallResult` paired with the event trace. -/
def call (env : CallEnv) (username : String) (duration : ℚ)
    (message : Option String) : CallResult × List Event :=
  match callBody env username duration message with
  | (.ok r, t) => (r, t)
  | (.error e, t) => (handleOuter username e, t)

/-- `TelegramCaller.call_multiple`: sequential calls with `message=None`
(the parameter does not exist there) and `await asyncio.sleep(delay)`
between consecutive targets. -/
def call_multiple (env : CallEnv) : List String → ℚ → ℚ → List CallResult × List Event
  | [], _, _ => ([], [])
  | [u], duration, _ =>
      let r := call env u duration none
      ([r.1], r.2)
  | u :: v :: us, duration, delay =>
      let r := call env u duration none
      let rest := call_multiple env (v :: us) duration delay
      (r.1 :: rest.1, r.2 ++ Event.sleep delay :: rest.2)

end TelegramCaller

/-! ## Module-level config utilities and the interactive dispatch -/

/-- State of the config file as `load_config` can encounter it: absent,
present but unreadable (opening or reading raises), or readable with the
given text content. -/
inductive FSState
  | missing
  | unreadable
  | content (s : String)

/-- The line list `load_config` computes: `f.read().strip().split('\n')`. -/
def configLines (s : String) : List (List Char) :=
  splitNl (pyStripL s.data)

/-- `load_config`: returns the parsed credentials, or `(None, None)` when
the file is missing, unreadable, has fewer than two lines after stripping,
or its first line does not parse as an `int` (the raised `ValueError` is
caught by the bare `except Exception`). -/
def load_config : FSState → Option Int × Option String
  | .missing => (none, none)
  | .unreadable => (none, none)
  | .content s =>
    match configLines s with
    | l0 :: l1 :: _ =>
      match pyParseIntL l0 with
      | some n => (some n, some (String.mk l1))
      | none => (none, none)
    | _ => (none, none)

/-- `save_config`: the file text written, `f"{api_id}\n{api_hash}\n"`. -/
def save_config (api_id : Int) (api_hash : String) : String :=
  String.mk (intStr api_id ++ '\n' :: api_hash.data ++ ['\n'])

/-- Target parsing of `interactive_mode` (lines 400-405): commas replaced
by spaces, then split on whitespace; the per-part strip/nonempty filter of
the source loop is subsumed because `split()` yields no empty parts. -/
def parseTargets (line : String) : List String :=
  (pySplitWs (line.data.map fun c => if c = ',' then ' ' else c) []).map String.mk

/-- The call-dispatch branch of `interactive_mode` (lines 399-415): one
target goes through `call` with the session's pre-call message, several go
through `call_multiple`, which receives only the ring duration. -/
def handleCallLine (env : CallEnv) (line : String) (ring_duration : ℚ)
    (pre_message : Option String) : List CallResult × List Event :=
  match parseTargets line with
  | [] => ([], [])
  | [u] =>
    let r := TelegramCaller.call env u ring_duration pre_message
    ([r.1], r.2)
  | us => TelegramCaller.call_multiple env us ring_duration 1

/-! ## Lemmas about the call routine -/

lemma afterMessage_request_ok {env : CallEnv} {user : Entity} {pc : PhoneCallObj}
    (u : String) (d : ℚ) (pre : List Event)
    (h : env.request_call user = .ok pc) :
    TelegramCaller.afterMessage env u d user pre =
      (.ok ⟨u, CallStatus.SUCCESS, TelegramCaller.successMsg d⟩,
       .resolve (TelegramCaller.refOf u) :: pre ++
         [.genDH, .requestCall user, .sleep d, .discardCall pc.id pc.access_hash]) := by
  unfold TelegramCaller.afterMessage
  rw [h]
  cases hd : env.discard_call pc.id pc.access_hash <;> simp [hd]

lemma afterMessage_request_error {env : CallEnv} {user : Entity} {e : PyErr}
    (u : String) (d : ℚ) (pre : List Event)
    (h : env.request_call user = .error e) :
    TelegramCaller.afterMessage env u d user pre =
      (.error e, .resolve (TelegramCaller.refOf u) :: pre ++ [.genDH, .requestCall user]) := by
  unfold TelegramCaller.afterMessage
  rw [h]

lemma callBody_none {env : CallEnv} {user : Entity} (u : String) (d : ℚ)
    (h : env.get_entity (TelegramCaller.refOf u) = .ok user) :
    TelegramCaller.callBody env u d none = TelegramCaller.afterMessage env u d user [] := by
  unfold TelegramCaller.callBody
  rw [h]

lemma callBody_some_ok {env : CallEnv} {user : Entity} (u : String) (d : ℚ) (msg : String)
    (h : env.get_entity (TelegramCaller.refOf u) = .ok user)
    (hs : env.send_message user msg = .ok ()) :
    TelegramCaller.callBody env u d (some msg) =
      TelegramCaller.afterMessage env u d user [.sendMsg user msg, .sleep (3 / 10)] := by
  unfold TelegramCaller.callBody
  rw [h]
  simp [hs]

lemma callBody_some_error {env : CallEnv} {user : Entity} {e : PyErr}
    (u : String) (d : ℚ) (msg : String)
    (h : env.get_entity (TelegramCaller.refOf u) = .ok user)
    (hs : env.send_message user msg = .error e) :
    TelegramCaller.callBody env u d (some msg) =
      (.error e, [.resolve (TelegramCaller.refOf u), .sendMsg user msg]) := by
  unfold TelegramCaller.callBody
  rw [h]
  simp [hs]

lemma callBody_entity_valueError {env : CallEnv} {msg : String}
    (u : String) (d : ℚ) (m : Option String)
    (h : env.get_entity (TelegramCaller.refOf u) = .error (.valueError msg)) :
    TelegramCaller.callBody env u d m =
      (.ok ⟨u, CallStatus.NOT_FOUND, "Пользователь не найден"⟩,
       [.resolve (TelegramCaller.refOf u)]) := by
  unfold TelegramCaller.callBody
  rw [h]

lemma callBody_entity_privacy {env : CallEnv}
    (u : String) (d : ℚ) (m : Option String)
    (h : env.get_entity (TelegramCaller.refOf u) = .error .privacy) :
    TelegramCaller.callBody env u d m =
      (.error .privacy, [.resolve (TelegramCaller.refOf u)]) := by
  unfold TelegramCaller.callBody
  rw [h]

lemma callBody_entity_flood {env : CallEnv} {s : Nat}
    (u : String) (d : ℚ) (m : Option String)
    (h : env.get_entity (TelegramCaller.refOf u) = .error (.floodWait s)) :
    TelegramCaller.callBody env u d m =
      (.error (.floodWait s), [.resolve (TelegramCaller.refOf u)]) := by
  unfold TelegramCaller.callBody
  rw [h]

lemma callBody_entity_other {env : CallEnv} {msg : String}
    (u : String) (d : ℚ) (m : Option String)
    (h : env.get_entity (TelegramCaller.refOf u) = .error (.other msg)) :
    TelegramCaller.callBody env u d m =
      (.error (.other msg), [.resolve (TelegramCaller.refOf u)]) := by
  unfold TelegramCaller.callBody
  rw [h]

lemma call_of_body_ok {env : CallEnv} {u : String} {d : ℚ} {m : Option String}
    {r : CallResult} {t : List Event}
    (h : TelegramCaller.callBody env u d m = (.ok r, t)) :
    TelegramCaller.call env u d m = (r, t) := by
  unfold TelegramCaller.call
  rw [h]

lemma call_of_body_error {env : CallEnv} {u : String} {d : ℚ} {m : Option String}
    {e : PyErr} {t : List Event}
    (h : TelegramCaller.callBody env u d m = (.error e, t)) :
    TelegramCaller.call env u d m = (TelegramCaller.handleOuter u e, t) := by
  unfold TelegramCaller.call
  rw [h]

/-! ## Concrete library behaviours used by witnesses and counterexamples -/

/-- A sample resolved entity. -/
def entU : Entity := ⟨some ("someuser"), 7⟩

/-- A sample phone-call object returned by the request RPC. -/
def pcU : PhoneCallObj := ⟨11, 22⟩

/-- A library behaviour where every operation succeeds. -/
def envOK : CallEnv where
  get_entity := fun _ => .ok entU
  send_message := fun _ _ => .ok ()
  request_call := fun _ => .ok pcU
  discard_call := fun _ _ => .ok ()

/-- Everything succeeds except the discard RPC, which raises. -/
def envDiscardBoom : CallEnv where
  get_entity := fun _ => .ok entU
  send_message := fun _ _ => .ok ()
  request_call := fun _ => .ok pcU
  discard_call := fun _ _ => .error (.other ("discard failed"))

/-- Entity resolution raises `FloodWaitError` with 30 seconds to wait. -/
def envFlood30 : CallEnv where
  get_entity := fun _ => .error (.floodWait 30)
  send_message := fun _ _ => .ok ()
  request_call := fun _ => .ok pcU
  discard_call := fun _ _ => .ok ()

/-- Entity resolution raises a generic exception whose text contains
`PRIVACY`. -/
def envGenericPrivacy : CallEnv where
  get_entity := fun _ => .error (.other ("RPC error: PRIVACY_TOO_MANY_CALLS"))
  send_message := fun _ _ => .ok ()
  request_call := fun _ => .ok pcU
  discard_call := fun _ _ => .ok ()

/-- A generic library exception message longer than 50 characters, with no
privacy marker. -/
def longErrMsg : String :=
  "connection to the telegram data center timed out after many retries"

/-- Entity resolution raises a generic exception with `longErrMsg`. -/
def envLongErr : CallEnv where
  get_entity := fun _ => .error (.other longErrMsg)
  send_message := fun _ _ => .ok ()
  request_call := fun _ => .ok pcU
  discard_call := fun _ _ => .ok ()

/-! ## C4 -/

/-- C4: on the success path the per-target routine performs, in order:
entity resolution, the optional pre-call message send (followed by the
fixed 0.3 s pause the source inserts there), DH parameter generation, the
request-call RPC, the sleep for the configured ring duration, and the
discard-call RPC. -/
theorem c4_success_path_order :
    ∀ (env : CallEnv) (u : String) (d : ℚ) (m : Option String)
      (user : Entity) (pc : PhoneCallObj),
      env.get_entity (TelegramCaller.refOf u) = .ok user →
      env.request_call user = .ok pc →
      (m = none →
        (TelegramCaller.call env u d m).2 =
          [.resolve (TelegramCaller.refOf u), .genDH, .requestCall user,
           .sleep d, .discardCall pc.id pc.access_hash]) ∧
      (∀ msg, m = some msg → env.send_message user msg = .ok () →
        (TelegramCaller.call env u d m).2 =
          [.resolve (TelegramCaller.refOf u), .sendMsg user msg, .sleep (3 / 10),
           .genDH, .requestCall user, .sleep d,
           .discardCall pc.id pc.access_hash]) := by
  intro env u d m user pc h1 h2
  constructor
  · rintro rfl
    rw [call_of_body_ok ((callBody_none u d h1).trans (afterMessage_request_ok u d [] h2))]
    rfl
  · rintro msg rfl hs
    rw [call_of_body_ok
      ((callBody_some_ok u d msg h1 hs).trans
        (afterMessage_request_ok u d [.sendMsg user msg, .sleep (3 / 10)] h2))]
    rfl

/-- Witness for C4 at a concrete environment, with and without a pre-call
message. -/
theorem c4_success_path_order_witness :
    (TelegramCaller.call envOK ("someuser") 5 none).2 =
      [.resolve (TelegramCaller.refOf ("someuser")), .genDH, .requestCall entU,
       .sleep 5, .discardCall pcU.id pcU.access_hash] ∧
    (TelegramCaller.call envOK ("someuser") 5 (some ("hi"))).2 =
      [.resolve (TelegramCaller.refOf ("someuser")), .sendMsg entU ("hi"), .sleep (3 / 10),
       .genDH, .requestCall entU, .sleep 5, .discardCall pcU.id pcU.access_hash] :=
  ⟨(c4_success_path_order envOK ("someuser") 5 none entU pcU rfl rfl).1 rfl,
   (c4_success_path_order envOK ("someuser") 5 (some ("hi")) entU pcU rfl rfl).2 ("hi") rfl rfl⟩

/-! ## C9 -/

/-- C9: the routine never propagates an exception.  If the resolve, message
and request steps succeed, the result is `SUCCESS` for every behaviour of
the discard RPC (its errors are swallowed); and for every library
behaviour whatsoever the routine returns a `CallResult` carrying one of
the five statuses. -/
theorem c9_no_propagation :
    (∀ (env : CallEnv) (u : String) (d : ℚ) (m : Option String)
       (user : Entity) (pc : PhoneCallObj),
       env.get_entity (TelegramCaller.refOf u) = .ok user →
       (∀ msg, m = some msg → env.send_message user msg = .ok ()) →
       env.request_call user = .ok pc →
       (TelegramCaller.call env u d m).1.status = CallStatus.SUCCESS) ∧
    (∀ (env : CallEnv) (u : String) (d : ℚ) (m : Option String),
       ∃ (r : CallResult) (t : List Event),
         TelegramCaller.call env u d m = (r, t) ∧
           (r.status = CallStatus.SUCCESS ∨ r.status = CallStatus.PRIVACY ∨
            r.status = CallStatus.NOT_FOUND ∨ r.status = CallStatus.FLOOD ∨
            r.status = CallStatus.FAILED)) := by
  constructor
  · intro env u d m user pc h1 hmsg h2
    cases m with
    | none =>
      rw [call_of_body_ok ((callBody_none u d h1).trans (afterMessage_request_ok u d [] h2))]
    | some msg =>
      rw [call_of_body_ok
        ((callBody_some_ok u d msg h1 (hmsg msg rfl)).trans
          (afterMessage_request_ok u d [.sendMsg user msg, .sleep (3 / 10)] h2))]
  · intro env u d m
    refine ⟨(TelegramCaller.call env u d m).1, (TelegramCaller.call env u d m).2, rfl, ?_⟩
    cases h : (TelegramCaller.call env u d m).1.status <;> tauto

/-- Witness for C9: the discard RPC raising does not change the `SUCCESS`
outcome. -/
theorem c9_no_propagation_witness :
    (TelegramCaller.call envDiscardBoom ("someuser") 5 none).1.status = CallStatus.SUCCESS :=
  c9_no_propagation.1 envDiscardBoom ("someuser") 5 none entU pcU rfl
    (fun _ h => nomatch h) rfl

/-! ## C3 -/

/-- Entity resolution raises `ValueError`, as telethon does for an unknown
username. -/
def envNotFound : CallEnv where
  get_entity := fun _ => .error (.valueError ("Cannot find any entity corresponding to user"))
  send_message := fun _ _ => .ok ()
  request_call := fun _ => .ok pcU
  discard_call := fun _ _ => .ok ()

/-- Status assigned by the handlers of `call` to an exception escaping its
body: `UserPrivacyRestrictedError` to `PRIVACY`, `FloodWaitError` to
`FLOOD`, and any other exception to `FAILED` unless its text contains
`PRIVACY` case-insensitively, which is reported as `PRIVACY`. -/
def errStatus : PyErr → CallStatus
  | .privacy => .PRIVACY
  | .floodWait _ => .FLOOD
  | .valueError m => if containsPrivacyUpper m then .PRIVACY else .FAILED
  | .other m => if containsPrivacyUpper m then .PRIVACY else .FAILED

lemma handleOuter_status (u : String) (e : PyErr) :
    (TelegramCaller.handleOuter u e).status = errStatus e := by
  cases e with
  | privacy => rfl
  | floodWait s => rfl
  | valueError m =>
    simp only [TelegramCaller.handleOuter, TelegramCaller.genericHandler, errStatus]
    split <;> rfl
  | other m =>
    simp only [TelegramCaller.handleOuter, TelegramCaller.genericHandler, errStatus]
    split <;> rfl

/-- C3 (counterexample to the claim as stated): a generic library exception
whose text contains `PRIVACY` is mapped to the `PRIVACY` status, not to
`FAILED` as the claim requires of "any other exception". -/
theorem c3_counterexample :
    envGenericPrivacy.get_entity (TelegramCaller.refOf ("someuser")) =
      .error (.other ("RPC error: PRIVACY_TOO_MANY_CALLS")) ∧
    (TelegramCaller.call envGenericPrivacy ("someuser") 5 none).1.status = CallStatus.PRIVACY ∧
    CallStatus.PRIVACY ≠ CallStatus.FAILED := by
  refine ⟨rfl, by decide, by decide⟩

/-- C3 (amended): every call attempt yields exactly one `CallResult` with
one of the five statuses; a `ValueError` from entity resolution maps to
`NOT_FOUND`; and any exception escaping the body maps to its documented
status, where a generic exception maps to `FAILED` unless its message
contains `PRIVACY` case-insensitively, in which case it maps to
`PRIVACY`. -/
theorem c3_status_mapping_amended :
    ∀ (env : CallEnv) (u : String) (d : ℚ) (m : Option String),
      ((TelegramCaller.call env u d m).1.status = CallStatus.SUCCESS ∨
       (TelegramCaller.call env u d m).1.status = CallStatus.PRIVACY ∨
       (TelegramCaller.call env u d m).1.status = CallStatus.NOT_FOUND ∨
       (TelegramCaller.call env u d m).1.status = CallStatus.FLOOD ∨
       (TelegramCaller.call env u d m).1.status = CallStatus.FAILED) ∧
      (∀ msg, env.get_entity (TelegramCaller.refOf u) = .error (.valueError msg) →
        (TelegramCaller.call env u d m).1.status = CallStatus.NOT_FOUND) ∧
      (∀ e t, TelegramCaller.callBody env u d m = (.error e, t) →
        (TelegramCaller.call env u d m).1.status = errStatus e) := by
  intro env u d m
  refine ⟨?_, ?_, ?_⟩
  · cases h : (TelegramCaller.call env u d m).1.status <;> tauto
  · intro msg h
    rw [call_of_body_ok (callBody_entity_valueError u d m h)]
  · intro e t h
    rw [call_of_body_error h, handleOuter_status]

/-- Witness for C3 at concrete environments: `FloodWaitError` at resolution
maps to `FLOOD`, and `ValueError` at resolution maps to `NOT_FOUND`. -/
theorem c3_status_mapping_witness :
    (TelegramCaller.call envFlood30 ("someuser") 5 none).1.status = errStatus (.floodWait 30) ∧
    (TelegramCaller.call envNotFound ("someuser") 5 none).1.status = CallStatus.NOT_FOUND :=
  ⟨(c3_status_mapping_amended envFlood30 ("someuser") 5 none).2.2 (.floodWait 30)
      [.resolve (TelegramCaller.refOf ("someuser"))] rfl,
   (c3_status_mapping_amended envNotFound ("someuser") 5 none).2.1
      ("Cannot find any entity corresponding to user") rfl⟩

/-! ## C7 -/

lemma natCast_ne_three_tenths (s : Nat) : (s : ℚ) ≠ 3 / 10 := by
  intro h
  have h10 : ((10 * s : Nat) : ℚ) = 3 := by push_cast; rw [h]; norm_num
  have : (10 * s : Nat) = 3 := by exact_mod_cast h10
  omega

/-- The four possible traces of a body that raised an exception: the error
arose at entity resolution, at the message send, or at the request RPC
(with or without a preceding message step). -/
lemma callBody_error_shape {env : CallEnv} {u : String} {d : ℚ} {m : Option String}
    {e : PyErr} {t : List Event}
    (h : TelegramCaller.callBody env u d m = (.error e, t)) :
    t = [.resolve (TelegramCaller.refOf u)] ∨
    (∃ user msg, t = [.resolve (TelegramCaller.refOf u), .sendMsg user msg]) ∨
    (∃ user, t = [.resolve (TelegramCaller.refOf u), .genDH, .requestCall user]) ∨
    (∃ user msg, t = [.resolve (TelegramCaller.refOf u), .sendMsg user msg,
                      .sleep (3 / 10), .genDH, .requestCall user]) := by
  cases hg : env.get_entity (TelegramCaller.refOf u) with
  | error e' =>
    cases e' with
    | privacy =>
      rw [callBody_entity_privacy u d m hg] at h
      exact Or.inl (congrArg Prod.snd h).symm
    | floodWait s =>
      rw [callBody_entity_flood u d m hg] at h
      exact Or.inl (congrArg Prod.snd h).symm
    | valueError msg =>
      rw [callBody_entity_valueError u d m hg] at h
      exact absurd (congrArg Prod.fst h) (by simp)
    | other msg =>
      rw [callBody_entity_other u d m hg] at h
      exact Or.inl (congrArg Prod.snd h).symm
  | ok user =>
    cases m with
    | none =>
      rw [callBody_none u d hg] at h
      cases hr : env.request_call user with
      | error e2 =>
        rw [afterMessage_request_error u d [] hr] at h
        exact Or.inr (Or.inr (Or.inl ⟨user, (congrArg Prod.snd h).symm⟩))
      | ok pc =>
        rw [afterMessage_request_ok u d [] hr] at h
        exact absurd (congrArg Prod.fst h) (by simp)
    | some msg =>
      cases hs : env.send_message user msg with
      | error e2 =>
        rw [callBody_some_error u d msg hg hs] at h
        exact Or.inr (Or.inl ⟨user, msg, (congrArg Prod.snd h).symm⟩)
      | ok v =>
        cases v
        rw [callBody_some_ok u d msg hg hs] at h
        cases hr : env.request_call user with
        | error e2 =>
          rw [afterMessage_request_error u d [.sendMsg user msg, .sleep (3 / 10)] hr] at h
          exact Or.inr (Or.inr (Or.inr ⟨user, msg, (congrArg Prod.snd h).symm⟩))
        | ok pc =>
          rw [afterMessage_request_ok u d [.sendMsg user msg, .sleep (3 / 10)] hr] at h
          exact absurd (congrArg Prod.fst h) (by simp)

/-- C7: a `FloodWaitError` during a call attempt yields a `FLOOD` result
whose message carries the wait seconds from the exception; the attempt is
not retried (at most one request RPC in the trace) and the reported wait
time is never slept; and a batch continues to the next target after the
fixed inter-call delay whatever the previous result was. -/
theorem c7_flood_handling :
    (∀ (env : CallEnv) (u : String) (d : ℚ) (m : Option String) (s : Nat) (t : List Event),
       TelegramCaller.callBody env u d m = (.error (.floodWait s), t) →
       (TelegramCaller.call env u d m).1 =
         ⟨u, CallStatus.FLOOD, "Подождите " ++ String.mk (natStr s) ++ "с"⟩ ∧
       (TelegramCaller.call env u d m).2 = t ∧
       t.countP (fun ev => ev.isRequest) ≤ 1 ∧
       Event.sleep (s : ℚ) ∉ t) ∧
    (∀ (env : CallEnv) (u v : String) (us : List String) (d δ : ℚ),
       TelegramCaller.call_multiple env (u :: v :: us) d δ =
         ((TelegramCaller.call env u d none).1 ::
            (TelegramCaller.call_multiple env (v :: us) d δ).1,
          (TelegramCaller.call env u d none).2 ++
            Event.sleep δ :: (TelegramCaller.call_multiple env (v :: us) d δ).2)) := by
  constructor
  · intro env u d m s t h
    refine ⟨?_, ?_, ?_, ?_⟩
    · rw [call_of_body_error h]
      rfl
    · rw [call_of_body_error h]
    · rcases callBody_error_shape h with h4 | ⟨user, msg, h4⟩ | ⟨user, h4⟩ | ⟨user, msg, h4⟩ <;>
        subst h4 <;> simp [List.countP_cons, Event.isRequest]
    · rcases callBody_error_shape h with h4 | ⟨user, msg, h4⟩ | ⟨user, h4⟩ | ⟨user, msg, h4⟩ <;>
        subst h4 <;> simp [natCast_ne_three_tenths s]
  · intro env u v us d δ
    rfl

/-- Witness for C7 at a concrete flood of 30 seconds during resolution. -/
theorem c7_flood_handling_witness :
    (TelegramCaller.call envFlood30 ("someuser") 5 none).1 =
      ⟨"someuser", CallStatus.FLOOD, "Подождите " ++ String.mk (natStr 30) ++ "с"⟩ ∧
    Event.sleep ((30 : Nat) : ℚ) ∉ (TelegramCaller.call envFlood30 ("someuser") 5 none).2 := by
  have h := c7_flood_handling.1 envFlood30 ("someuser") 5 none 30
    [.resolve (TelegramCaller.refOf ("someuser"))] rfl
  exact ⟨h.1, h.2.1 ▸ h.2.2.2⟩

/-! ## C8 -/

/-- Python `s[:50]`, the truncation applied to the printed error line. -/
def pyTake50 (s : String) : String := String.mk (s.data.take 50)

/-- C8 (counterexample to the claim as stated): for a generic exception
message longer than 50 characters, the message stored in the returned
`CallResult` is the full exception text, not its truncation (only the
printed console line is truncated). -/
theorem c8_counterexample :
    (TelegramCaller.call envLongErr ("someuser") 5 none).1.message = longErrMsg ∧
    pyTake50 longErrMsg ≠ longErrMsg := by
  exact ⟨by decide, by decide⟩

/-- C8 (amended): when a call attempt fails with a generic library
exception not mapped to privacy, not-found or flood-wait, the message of
the resulting `CallResult` is the full exception message; the truncation
to 50 characters applies only to the console printout, not to the
status/message pair. -/
theorem c8_full_message_amended :
    ∀ (env : CallEnv) (u : String) (d : ℚ) (m : Option String)
      (msg : String) (t : List Event),
      TelegramCaller.callBody env u d m = (.error (.other msg), t) →
      containsPrivacyUpper msg = false →
      (TelegramCaller.call env u d m).1 = ⟨u, CallStatus.FAILED, msg⟩ := by
  intro env u d m msg t h hpriv
  rw [call_of_body_error h]
  simp [TelegramCaller.handleOuter, TelegramCaller.genericHandler, hpriv]

/-- Witness for C8 at the concrete 67-character exception message. -/
theorem c8_full_message_witness :
    (TelegramCaller.call envLongErr ("someuser") 5 none).1 =
      ⟨"someuser", CallStatus.FAILED, longErrMsg⟩ :=
  c8_full_message_amended envLongErr ("someuser") 5 none longErrMsg
    [.resolve (TelegramCaller.refOf ("someuser"))] rfl (by decide)

/-! ## C6 -/

lemma handleOuter_username (u : String) (e : PyErr) :
    (TelegramCaller.handleOuter u e).username = u := by
  cases e with
  | privacy => rfl
  | floodWait s => rfl
  | valueError m =>
    simp only [TelegramCaller.handleOuter, TelegramCaller.genericHandler]
    split <;> rfl
  | other m =>
    simp only [TelegramCaller.handleOuter, TelegramCaller.genericHandler]
    split <;> rfl

/-- On every path, the result names the original input and the trace opens
with the resolution of the normalized target. -/
lemma call_username_and_head (env : CallEnv) (u : String) (d : ℚ) (m : Option String) :
    (TelegramCaller.call env u d m).1.username = u ∧
    ∃ t0, (TelegramCaller.call env u d m).2 = .resolve (TelegramCaller.refOf u) :: t0 := by
  cases hb : TelegramCaller.callBody env u d m with
  | mk res t =>
    have hshape : ∃ t0, t = .resolve (TelegramCaller.refOf u) :: t0 := by
      cases hg : env.get_entity (TelegramCaller.refOf u) with
      | error e' =>
        cases e' with
        | privacy =>
          rw [callBody_entity_privacy u d m hg] at hb
          exact ⟨[], (congrArg Prod.snd hb.symm)⟩
        | floodWait s =>
          rw [callBody_entity_flood u d m hg] at hb
          exact ⟨[], (congrArg Prod.snd hb.symm)⟩
        | valueError msg =>
          rw [callBody_entity_valueError u d m hg] at hb
          exact ⟨[], (congrArg Prod.snd hb.symm)⟩
        | other msg =>
          rw [callBody_entity_other u d m hg] at hb
          exact ⟨[], (congrArg Prod.snd hb.symm)⟩
      | ok user =>
        have hafter : ∀ pre, ∃ t0,
            (TelegramCaller.afterMessage env u d user pre).2 =
              .resolve (TelegramCaller.refOf u) :: t0 := by
          intro pre
          cases hr : env.request_call user with
          | error e2 => rw [afterMessage_request_error u d pre hr]; exact ⟨_, rfl⟩
          | ok pc => rw [afterMessage_request_ok u d pre hr]; exact ⟨_, rfl⟩
        cases m with
        | none =>
          rw [callBody_none u d hg] at hb
          obtain ⟨t0, ht⟩ := hafter []
          rw [hb] at ht
          exact ⟨t0, ht⟩
        | some msg =>
          cases hs : env.send_message user msg with
          | error e2 =>
            rw [callBody_some_error u d msg hg hs] at hb
            exact ⟨_, (congrArg Prod.snd hb.symm)⟩
          | ok v =>
            cases v
            rw [callBody_some_ok u d msg hg hs] at hb
            obtain ⟨t0, ht⟩ := hafter [.sendMsg user msg, .sleep (3 / 10)]
            rw [hb] at ht
            exact ⟨t0, ht⟩
    have husr : ∀ r, res = .ok r → r.username = u := by
      intro r hr
      subst hr
      cases hg : env.get_entity (TelegramCaller.refOf u) with
      | error e' =>
        cases e' with
        | privacy => rw [callBody_entity_privacy u d m hg] at hb; exact nomatch congrArg Prod.fst hb
        | floodWait s => rw [callBody_entity_flood u d m hg] at hb; exact nomatch congrArg Prod.fst hb
        | valueError msg =>
          rw [callBody_entity_valueError u d m hg] at hb
          have := congrArg Prod.fst hb
          simp only [Except.ok.injEq] at this
          rw [← this]
        | other msg => rw [callBody_entity_other u d m hg] at hb; exact nomatch congrArg Prod.fst hb
      | ok user =>
        have hafter : ∀ pre r2,
            (TelegramCaller.afterMessage env u d user pre).1 = .ok r2 → r2.username = u := by
          intro pre r2 h2
          cases hr2 : env.request_call user with
          | error e2 =>
            rw [afterMessage_request_error u d pre hr2] at h2
            exact nomatch h2
          | ok pc =>
            rw [afterMessage_request_ok u d pre hr2] at h2
            simp only [Except.ok.injEq] at h2
            rw [← h2]
        cases m with
        | none =>
          rw [callBody_none u d hg] at hb
          exact hafter [] _ (by rw [hb])
        | some msg =>
          cases hs : env.send_message user msg with
          | error e2 =>
            rw [callBody_some_error u d msg hg hs] at hb
            exact nomatch congrArg Prod.fst hb
          | ok v =>
            cases v
            rw [callBody_some_ok u d msg hg hs] at hb
            exact hafter [.sendMsg user msg, .sleep (3 / 10)] _ (by rw [hb])
    cases res with
    | ok r =>
      rw [call_of_body_ok hb]
      exact ⟨husr r rfl, hshape⟩
    | error e =>
      rw [call_of_body_error hb]
      exact ⟨handleOuter_username u e, hshape⟩

/-- C6: the target handed to resolution is the input stripped of
surrounding whitespace with one leading `@` removed, while the identifier
stored in the returned `CallResult` is the original unmodified input, on
every path. -/
theorem c6_normalization :
    ∀ (env : CallEnv) (u : String) (d : ℚ) (m : Option String),
      (TelegramCaller.call env u d m).1.username = u ∧
      (TelegramCaller.call env u d m).2.head? =
        some (.resolve (TelegramCaller.refOf u)) ∧
      TelegramCaller.normalizeTarget u =
        (if (pyStripL u.data).head? = some '@'
         then (pyStripL u.data).tail
         else pyStripL u.data) := by
  intro env u d m
  obtain ⟨h1, t0, h2⟩ := call_username_and_head env u d m
  refine ⟨h1, by rw [h2]; rfl, ?_⟩
  unfold TelegramCaller.normalizeTarget
  cases l : pyStripL u.data with
  | nil => simp
  | cons c rest =>
    by_cases hc : c = '@'
    · subst hc
      simp
    · simp only [List.head?_cons, Option.some.injEq, if_neg hc]
      split
      next heq => exact absurd (List.head_eq_of_cons_eq heq) hc
      next => rfl

/-! ## C1 -/

/-- Every call placed by `call_multiple` uses the given duration and no
pre-call message. -/
lemma call_multiple_results (env : CallEnv) :
    ∀ (us : List String) (d δ : ℚ),
      (TelegramCaller.call_multiple env us d δ).1 =
        us.map (fun u => (TelegramCaller.call env u d none).1) := by
  intro us
  induction us with
  | nil => intro d δ; rfl
  | cons u vs ih =>
    intro d δ
    cases vs with
    | nil => rfl
    | cons v ws =>
      simp only [TelegramCaller.call_multiple, List.map_cons]
      rw [ih d δ]
      simp

/-- C1 (counterexample to the claim as stated): with a pre-call message set
and two targets entered on one line, no message is sent before any of the
calls, although a single-target line with the same settings does send
one. -/
theorem c1_counterexample :
    parseTargets ("a b") = ["a", "b"] ∧
    (∀ e ∈ (handleCallLine envOK ("a b") 5 (some ("hi"))).2, Event.isSend e = false) ∧
    (∃ e ∈ (TelegramCaller.call envOK ("a") 5 (some ("hi"))).2, Event.isSend e = true) := by
  refine ⟨by decide, by decide, by decide⟩

/-- C1 (amended): every call placed from an interactive line uses the
configured ring duration, but the pre-call message is passed only when
exactly one target is entered; a line with several targets goes through
`call_multiple`, whose calls carry no message. -/
theorem c1_amended_dispatch :
    ∀ (env : CallEnv) (line : String) (d : ℚ) (pm : Option String),
      (∀ u, parseTargets line = [u] →
        handleCallLine env line d pm =
          ([(TelegramCaller.call env u d pm).1], (TelegramCaller.call env u d pm).2)) ∧
      (2 ≤ (parseTargets line).length →
        (handleCallLine env line d pm).1 =
          (parseTargets line).map (fun u => (TelegramCaller.call env u d none).1)) := by
  intro env line d pm
  constructor
  · intro u h
    unfold handleCallLine
    rw [h]
  · intro h
    unfold handleCallLine
    cases l : parseTargets line with
    | nil => rw [l] at h; exact absurd h (by simp)
    | cons u vs =>
      cases vs with
      | nil => rw [l] at h; exact absurd h (by simp)
      | cons v ws => exact call_multiple_results env (u :: v :: ws) d 1

/-- Witness for C1 (amended) on concrete one- and two-target lines. -/
theorem c1_amended_dispatch_witness :
    handleCallLine envOK ("@alice") 5 (some ("hi")) =
      ([(TelegramCaller.call envOK ("@alice") 5 (some ("hi"))).1],
       (TelegramCaller.call envOK ("@alice") 5 (some ("hi"))).2) ∧
    (handleCallLine envOK ("a b") 5 (some ("hi"))).1 =
      (parseTargets ("a b")).map (fun u => (TelegramCaller.call envOK u 5 none).1) :=
  ⟨(c1_amended_dispatch envOK ("@alice") 5 (some ("hi"))).1 ("@alice") (by decide),
   (c1_amended_dispatch envOK ("a b") 5 (some ("hi"))).2 (by decide)⟩

/-! ## C5 -/

lemma toBytesBE_length : ∀ (l n : Nat), (TelegramCaller.toBytesBE l n).length = l := by
  intro l
  induction l with
  | zero => intro n; rfl
  | succ k ih => intro n; simp [TelegramCaller.toBytesBE, ih]

/-- Byte `i` (from the most significant end) of the `l`-byte big-endian
encoding is the `i`-th base-256 digit from the top. -/
lemma toBytesBE_getD : ∀ (l n i : Nat), i < l →
    (TelegramCaller.toBytesBE l n).getD i 0 = n / 256 ^ (l - 1 - i) % 256 := by
  intro l
  induction l with
  | zero => intro n i h; omega
  | succ k ih =>
    intro n i h
    by_cases hi : i < k
    · rw [TelegramCaller.toBytesBE,
        List.getD_append _ _ _ _ (by rw [toBytesBE_length]; exact hi), ih (n / 256) i hi,
        Nat.div_div_eq_div_mul]
      have hp : 256 * 256 ^ (k - 1 - i) = 256 ^ (k + 1 - 1 - i) := by
        rw [← pow_succ']
        congr 1
        omega
      rw [hp]
    · have hik : i = k := by omega
      subst hik
      rw [TelegramCaller.toBytesBE,
        List.getD_append_right _ _ _ _ (by rw [toBytesBE_length])]
      simp [toBytesBE_length]

/-- C5: `_generate_dh_params` returns the pair of the SHA-256 digest of the
256-byte big-endian encoding of `g_a` and `g_a` itself, where
`g_a = 3 ^ x mod DH_PRIME` for the drawn exponent `x` (any value of
`secrets.randbits(256)`, hence any `x < 2 ^ 256`, and in fact any `x`);
the encoding has exactly 256 big-endian base-256 digits, `g_a` always fits
in them, and `DH_PRIME` is the fixed 2048-bit constant with generator 3. -/
theorem c5_dh_params :
    ∀ (sha256 : List Nat → List Nat) (x : Nat),
      TelegramCaller.generate_dh_params sha256 x =
        (sha256 (TelegramCaller.toBytesBE 256 (3 ^ x % TelegramCaller.DH_PRIME)),
         3 ^ x % TelegramCaller.DH_PRIME) ∧
      (TelegramCaller.toBytesBE 256 (3 ^ x % TelegramCaller.DH_PRIME)).length = 256 ∧
      (∀ i, i < 256 →
        (TelegramCaller.toBytesBE 256 (3 ^ x % TelegramCaller.DH_PRIME)).getD i 0 =
          3 ^ x % TelegramCaller.DH_PRIME / 256 ^ (255 - i) % 256) ∧
      3 ^ x % TelegramCaller.DH_PRIME < 2 ^ 2048 ∧
      2 ^ 2047 < TelegramCaller.DH_PRIME ∧
      TelegramCaller.DH_PRIME < 2 ^ 2048 ∧
      TelegramCaller.DH_GENERATOR = 3 := by
  intro sha256 x
  have hlo : 1 <<< 2047 < TelegramCaller.DH_PRIME := by decide
  have hhi : TelegramCaller.DH_PRIME < 1 <<< 2048 := by decide
  have e1 : (1 : Nat) <<< 2047 = 2 ^ 2047 := by rw [Nat.shiftLeft_eq, one_mul]
  have e2 : (1 : Nat) <<< 2048 = 2 ^ 2048 := by rw [Nat.shiftLeft_eq, one_mul]
  rw [e1] at hlo
  rw [e2] at hhi
  refine ⟨rfl, toBytesBE_length 256 _, ?_, ?_, hlo, hhi, rfl⟩
  · intro i hi
    exact toBytesBE_getD 256 _ i hi
  · calc 3 ^ x % TelegramCaller.DH_PRIME < TelegramCaller.DH_PRIME :=
          Nat.mod_lt _ (by omega)
      _ < 2 ^ 2048 := hhi

/-- Witness for C5: the degenerate exponent 0 gives `g_a = 1`, whose
encoding ends in the byte 1 after 255 zero bytes. -/
theorem c5_dh_params_witness :
    TelegramCaller.generate_dh_params (fun bs => bs) 0 =
      (TelegramCaller.toBytesBE 256 1, 1) ∧
    (TelegramCaller.toBytesBE 256 1).getD 255 0 = 1 := by
  have h := c5_dh_params (fun bs => bs) 0
  constructor
  · have := h.1
    simpa using this
  · have h255 := h.2.2.1 255 (by decide)
    have hmod : 3 ^ 0 % TelegramCaller.DH_PRIME = 1 := by decide
    rw [hmod] at h255
    simpa using h255

/-! ## C2: decimal printing and parsing round trip -/

lemma decChar_spec : ∀ d, d < 10 →
    (decChar d).isDigit = true ∧ decVal (decChar d) = d ∧
    isPySpace (decChar d) = false ∧ decChar d ≠ '\n' := by decide

lemma natDigitsRevAux_lt : ∀ (fuel n : Nat), ∀ m ∈ natDigitsRevAux fuel n, m < 10 := by
  intro fuel
  induction fuel with
  | zero => intro n m hm; simp [natDigitsRevAux] at hm
  | succ f ih =>
    intro n m hm
    by_cases h0 : n = 0
    · simp [natDigitsRevAux, h0] at hm
    · rw [natDigitsRevAux, if_neg h0] at hm
      rcases List.mem_cons.mp hm with h | h
      · subst h; exact Nat.mod_lt _ (by omega)
      · exact ih (n / 10) m h

lemma natDigitsRevAux_foldl : ∀ (fuel n acc : Nat), n < fuel →
    ((natDigitsRevAux fuel n).reverse.map decChar).foldl
        (fun a c => a * 10 + decVal c) acc =
      acc * 10 ^ (natDigitsRevAux fuel n).length + n := by
  intro fuel
  induction fuel with
  | zero => intro n acc h; omega
  | succ f ih =>
    intro n acc h
    by_cases h0 : n = 0
    · simp [natDigitsRevAux, h0]
    · rw [natDigitsRevAux, if_neg h0]
      have hdiv : n / 10 < f := by
        have h1 : n / 10 < n := Nat.div_lt_self (by omega) (by omega)
        omega
      rw [List.reverse_cons, List.map_append, List.foldl_append, ih (n / 10) acc hdiv]
      have hdig := (decChar_spec (n % 10) (Nat.mod_lt _ (by omega))).2.1
      simp only [List.map_cons, List.map_nil, List.foldl_cons, List.foldl_nil, hdig,
        List.length_cons]
      have hmod := Nat.div_add_mod n 10
      calc (acc * 10 ^ (natDigitsRevAux f (n / 10)).length + n / 10) * 10 + n % 10
          = acc * (10 ^ (natDigitsRevAux f (n / 10)).length * 10) +
              (10 * (n / 10) + n % 10) := by ring
        _ = acc * 10 ^ ((natDigitsRevAux f (n / 10)).length + 1) + n := by
              rw [hmod, pow_succ]

lemma natStr_mem : ∀ (n : Nat), ∀ c ∈ natStr n,
    c.isDigit = true ∧ isPySpace c = false ∧ c ≠ '\n' := by
  intro n c hc
  unfold natStr at hc
  by_cases h0 : n = 0
  · rw [if_pos h0] at hc
    simp at hc
    subst hc
    refine ⟨by decide, by decide, by decide⟩
  · rw [if_neg h0] at hc
    simp only [List.mem_map, List.mem_reverse] at hc
    obtain ⟨m, hm, rfl⟩ := hc
    have hlt := natDigitsRevAux_lt (n + 1) n m hm
    obtain ⟨h1, _, h3, h4⟩ := decChar_spec m hlt
    exact ⟨h1, h3, h4⟩

lemma natStr_ne_nil (n : Nat) : natStr n ≠ [] := by
  unfold natStr
  by_cases h0 : n = 0
  · simp [h0]
  · rw [if_neg h0]
    rw [natDigitsRevAux, if_neg h0]
    simp

lemma digitsVal_natStr (n : Nat) : digitsVal (natStr n) = n := by
  unfold natStr digitsVal
  by_cases h0 : n = 0
  · simp [h0, decVal]
  · rw [if_neg h0]
    rw [natDigitsRevAux_foldl (n + 1) n 0 (by omega)]
    simp

lemma digitsOpt_natStr (n : Nat) : digitsOpt (natStr n) = some n := by
  unfold digitsOpt
  rw [if_neg (by simp [natStr_ne_nil n])]
  rw [if_pos (by
    rw [List.all_eq_true]
    intro c hc
    exact (natStr_mem n c hc).1)]
  rw [digitsVal_natStr]

lemma intStr_mem : ∀ (n : Int), ∀ c ∈ intStr n, isPySpace c = false ∧ c ≠ '\n' := by
  intro n c hc
  unfold intStr at hc
  by_cases hn : n < 0
  · rw [if_pos hn] at hc
    rcases List.mem_cons.mp hc with h | h
    · subst h; exact ⟨by decide, by decide⟩
    · exact (natStr_mem _ c h).2
  · rw [if_neg hn] at hc
    exact (natStr_mem _ c hc).2

lemma dropWhile_eq_self_of_all {l : List Char}
    (h : ∀ c ∈ l, isPySpace c = false) : l.dropWhile isPySpace = l := by
  cases l with
  | nil => rfl
  | cons c cs =>
    rw [List.dropWhile_cons_of_neg]
    simp [h c (List.mem_cons_self c cs)]

lemma pyStripL_eq_self {l : List Char}
    (h : ∀ c ∈ l, isPySpace c = false) : pyStripL l = l := by
  unfold pyStripL
  rw [dropWhile_eq_self_of_all h]
  rw [dropWhile_eq_self_of_all (fun c hc => h c (List.mem_reverse.mp hc))]
  exact List.reverse_reverse l

lemma pyParseIntL_intStr (n : Int) : pyParseIntL (intStr n) = some n := by
  unfold pyParseIntL
  rw [pyStripL_eq_self (fun c hc => (intStr_mem n c hc).1)]
  unfold intStr
  by_cases hn : n < 0
  · rw [if_pos hn]
    simp [digitsOpt_natStr, abs_of_neg hn]
  · rw [if_neg hn]
    cases hl : natStr n.toNat with
    | nil => exact absurd hl (natStr_ne_nil _)
    | cons c rest =>
      have hdig : c.isDigit = true :=
        (natStr_mem n.toNat c (hl ▸ List.mem_cons_self c rest)).1
      have hcm : c ≠ '-' := by rintro rfl; exact absurd hdig (by decide)
      have hcp : c ≠ '+' := by rintro rfl; exact absurd hdig (by decide)
      simp [hcm, hcp, ← hl, digitsOpt_natStr]
      omega

lemma splitNl_ne_nil : ∀ (l : List Char), splitNl l ≠ [] := by
  intro l
  induction l with
  | nil => simp [splitNl]
  | cons c cs ih =>
    rw [splitNl]
    by_cases hc : c = '\n'
    · simp [hc]
    · rw [if_neg hc]
      cases h : splitNl cs with
      | nil => simp
      | cons x xs => simp

lemma splitNl_no_nl {l : List Char} (h : ∀ c ∈ l, c ≠ '\n') : splitNl l = [l] := by
  induction l with
  | nil => rfl
  | cons c cs ih =>
    rw [splitNl, if_neg (h c (List.mem_cons_self c cs))]
    rw [ih (fun x hx => h x (List.mem_cons_of_mem c hx))]

lemma splitNl_append {a : List Char} (b : List Char) (ha : ∀ c ∈ a, c ≠ '\n') :
    splitNl (a ++ '\n' :: b) = a :: splitNl b := by
  induction a with
  | nil => simp [splitNl]
  | cons c a2 ih =>
    rw [List.cons_append, splitNl, if_neg (ha c (List.mem_cons_self c a2))]
    rw [ih (fun x hx => ha x (List.mem_cons_of_mem c hx))]

lemma pyStripL_wrap {A hd : List Char}
    (hA : ∀ c ∈ A, isPySpace c = false) (hAne : A ≠ [])
    (hne : hd ≠ [])
    (hlast : hd.getLast?.all (fun c => !isPySpace c) = true) :
    pyStripL (A ++ '\n' :: hd ++ ['\n']) = A ++ '\n' :: hd := by
  unfold pyStripL
  have h1 : (A ++ '\n' :: hd ++ ['\n']).dropWhile isPySpace =
      A ++ '\n' :: hd ++ ['\n'] := by
    cases A with
    | nil => exact absurd rfl hAne
    | cons a0 A2 =>
      rw [List.cons_append, List.cons_append, List.dropWhile_cons_of_neg]
      simp [hA a0 (List.mem_cons_self a0 A2)]
  rw [h1]
  have h2 : (A ++ '\n' :: hd ++ ['\n']).reverse =
      '\n' :: (hd.reverse ++ '\n' :: A.reverse) := by
    simp
  rw [h2]
  rw [List.dropWhile_cons_of_pos (by decide)]
  have h3 : (hd.reverse ++ '\n' :: A.reverse).dropWhile isPySpace =
      hd.reverse ++ '\n' :: A.reverse := by
    cases hr : hd.reverse with
    | nil => exact absurd (by simpa using hr) hne
    | cons z Z =>
      rw [List.cons_append, List.dropWhile_cons_of_neg]
      have hz : hd.getLast? = some z := by
        rw [← List.head?_reverse, hr, List.head?_cons]
      rw [hz] at hlast
      simp only [Option.all_some, Bool.not_eq_true'] at hlast
      simp [hlast]
  rw [h3]
  simp

/-- Universal-newline translation performed by text-mode `read()`: every
`'\r\n'` pair and every lone `'\r'` becomes `'\n'`.  `save_config` also
opens its file in text mode, which on Windows expands each written `'\n'`
to `'\r\n'` on disk; the read side maps that expansion back, so whenever
the written text owes all its carriage returns to the expansion — in
particular for everything `save_config` writes from a hash containing no
`'\r'` — the write-then-read composition equals `univNewlines` of the
written string on every platform, which is what the round-trip theorems
compose with. -/
def univNewlines : List Char → List Char
  | '\r' :: '\n' :: rest => '\n' :: univNewlines rest
  | '\r' :: rest => '\n' :: univNewlines rest
  | c :: rest => c :: univNewlines rest
  | [] => []

/-- The text `load_config` reads back from the file `save_config` wrote. -/
def readBackText (s : String) : String := String.mk (univNewlines s.data)

lemma univNewlines_of_no_cr : ∀ {l : List Char}, (∀ c ∈ l, c ≠ '\r') →
    univNewlines l = l := by
  intro l
  induction l with
  | nil => intro h; rfl
  | cons c rest ih =>
    intro h
    have hc : c ≠ '\r' := h c (List.mem_cons_self c rest)
    have hr : univNewlines rest = rest :=
      ih (fun x hx => h x (List.mem_cons_of_mem c hx))
    rw [univNewlines.eq_def]
    split
    next heq => exact absurd (List.head_eq_of_cons_eq heq) hc
    next heq => exact absurd (List.head_eq_of_cons_eq heq) hc
    next c2 rest2 heq =>
      obtain ⟨rfl, rfl⟩ := List.cons_eq_cons.mp heq
      rw [hr]
    next heq => exact absurd heq (List.cons_ne_nil c rest)

/-- C2 (counterexample to the claim as stated): saving with the empty API
hash and loading back yields `(None, None)`, not the saved pair (the blank
second line is stripped away, leaving a single line). -/
theorem c2_counterexample :
    load_config (.content (readBackText (save_config 1 ("")))) = (none, none) ∧
    ((none, none) : Option Int × Option String) ≠ (some 1, some ("")) := by
  exact ⟨by decide, by decide⟩

/-- C2 (amended): the save/load round trip — including the text-mode
universal-newline translation between writing and reading — recovers the
identical pair for every integer API ID and every API hash that is
nonempty, contains no newline and no carriage return, and does not end in
a character Python treats as whitespace; for other hashes the newline
translation of `read()` or the strip/split in `load_config` loses or
alters the second line. -/
theorem c2_roundtrip_amended :
    ∀ (api_id : Int) (api_hash : String),
      api_hash.data ≠ [] →
      (∀ c ∈ api_hash.data, c ≠ '\n' ∧ c ≠ '\r') →
      api_hash.data.getLast?.all (fun c => !isPySpace c) = true →
      load_config (.content (readBackText (save_config api_id api_hash))) =
        (some api_id, some api_hash) := by
  intro api_id api_hash hne hchars hlast
  have hdata : (save_config api_id api_hash).data =
      intStr api_id ++ '\n' :: api_hash.data ++ ['\n'] := rfl
  have hread : (readBackText (save_config api_id api_hash)).data =
      intStr api_id ++ '\n' :: api_hash.data ++ ['\n'] := by
    show univNewlines (save_config api_id api_hash).data = _
    rw [hdata]
    refine univNewlines_of_no_cr ?_
    intro c hc
    rcases List.mem_append.mp hc with h1 | h2
    · rcases List.mem_append.mp h1 with h3 | h4
      · have hsp := (intStr_mem api_id c h3).1
        rintro rfl
        exact absurd hsp (by decide)
      · rcases List.mem_cons.mp h4 with h5 | h6
        · subst h5; decide
        · exact (hchars c h6).2
    · simp only [List.mem_singleton] at h2
      subst h2; decide
  have hstrip : pyStripL (readBackText (save_config api_id api_hash)).data =
      intStr api_id ++ '\n' :: api_hash.data := by
    rw [hread]
    exact pyStripL_wrap (fun c hc => (intStr_mem api_id c hc).1)
      (by
        unfold intStr
        by_cases hn : api_id < 0
        · simp [hn]
        · simp [hn, natStr_ne_nil])
      hne hlast
  have hlines : configLines (readBackText (save_config api_id api_hash)) =
      [intStr api_id, api_hash.data] := by
    unfold configLines
    rw [hstrip, splitNl_append api_hash.data (fun c hc => (intStr_mem api_id c hc).2),
      splitNl_no_nl (fun c hc => (hchars c hc).1)]
  simp only [load_config, hlines, pyParseIntL_intStr]

/-- Witness for C2 at a concrete ID and hash. -/
theorem c2_roundtrip_witness :
    load_config (.content (readBackText (save_config 42 ("0123456789abcdef")))) =
      (some 42, some ("0123456789abcdef")) :=
  c2_roundtrip_amended 42 ("0123456789abcdef") (by decide) (by decide) (by decide)

/-! ## C10 -/

/-- C10: `load_config` is total and degrades to absence.  For every
file-system state it returns either `(None, None)` or an `(int, str)`
pair, and the latter only for a readable file whose stripped content
splits into at least two lines with an integer-parsing first line. -/
theorem c10_load_config_total :
    ∀ fs : FSState,
      load_config fs = (none, none) ∨
      ∃ (s : String) (n : Int) (l0 l1 : List Char) (rest : List (List Char)),
        fs = .content s ∧
        configLines s = l0 :: l1 :: rest ∧
        pyParseIntL l0 = some n ∧
        load_config fs = (some n, some (String.mk l1)) := by
  intro fs
  cases fs with
  | missing => exact Or.inl rfl
  | unreadable => exact Or.inl rfl
  | content s =>
    cases hl : configLines s with
    | nil => exact Or.inl (by simp [load_config, hl])
    | cons l0 tl =>
      cases tl with
      | nil => exact Or.inl (by simp [load_config, hl])
      | cons l1 rest =>
        cases hp : pyParseIntL l0 with
        | none => exact Or.inl (by simp [load_config, hl, hp])
        | some n =>
          exact Or.inr ⟨s, n, l0, l1, rest, rfl, hl, hp, by simp [load_config, hl, hp]⟩
